import Mathlib

/-!
Verification of the AnimeSonarrProxy core against its specification.

The Python source is shallowly embedded: each Python function of interest is
translated to an executable Lean definition with the same name (leading
underscores dropped where Lean naming requires it).  Machine integers are
modelled as `Int`/`Nat` (the Python code never relies on overflow), optional
values as `Option`, Python `datetime` values as `Nat` ticks (only ordering and
differences are used), and raised exceptions as `Except` values.
-/

namespace ASP

/-! ## Python primitives

Helpers shared by several embedded functions, modelling Python built-ins. -/

/-- Whitespace recognised by Python's `str.strip`, `str.split()` and the
regex class `\s` (restricted to the ASCII whitespace characters, which are the
only ones this program ever meets in practice). -/
def pyIsSpace (c : Char) : Bool :=
  c = ' ' ∨ c = '\t' ∨ c = '\n' ∨ c = '\r' ∨ c = '\x0b' ∨ c = '\x0c'

/-- Python `str.strip()` on a character list. -/
def pyStripList (l : List Char) : List Char :=
  ((l.dropWhile pyIsSpace).reverse.dropWhile pyIsSpace).reverse

/-- Python `str.strip()`. -/
def pyStrip (s : String) : String :=
  String.mk (pyStripList s.data)

/-- Core of `pyDedup`, carrying the set of elements already seen. -/
def pyDedupAux {α : Type} [DecidableEq α] : List α → List α → List α
  | _, [] => []
  | seen, a :: l =>
      if a ∈ seen then pyDedupAux seen l else a :: pyDedupAux (a :: seen) l

/-- Order-preserving deduplication keeping the first occurrence of each
element, the semantics of Python's `list(dict.fromkeys(xs))` and of inserting
into a dict keyed by the element. -/
def pyDedup {α : Type} [DecidableEq α] (l : List α) : List α :=
  pyDedupAux [] l

/-- Alphabetic characters as recognised by Python's `str.isalpha`, restricted
to the script blocks this program distinguishes: ASCII letters, the Latin
supplement/extended letters (excluding `×` and `÷`, which are not letters),
Latin Extended Additional, Hiragana, Katakana, CJK Unified Ideographs and
Hangul syllables. -/
def pyIsAlpha (c : Char) : Bool :=
  let n := c.toNat
  decide ((0x41 ≤ n ∧ n ≤ 0x5A) ∨ (0x61 ≤ n ∧ n ≤ 0x7A)
    ∨ n = 0xAA ∨ n = 0xB5 ∨ n = 0xBA
    ∨ (0xC0 ≤ n ∧ n ≤ 0x24F ∧ n ≠ 0xD7 ∧ n ≠ 0xF7)
    ∨ (0x1E00 ≤ n ∧ n ≤ 0x1EFF)
    ∨ (0x3041 ≤ n ∧ n ≤ 0x3096)
    ∨ (0x30A1 ≤ n ∧ n ≤ 0x30FA)
    ∨ (0x4E00 ≤ n ∧ n ≤ 0x9FFF)
    ∨ (0xAC00 ≤ n ∧ n ≤ 0xD7A3))

/-! ## app/services/anime_db.py : the Latin-script classifier -/

/-- Code points the classifier counts as Latin, from `_is_latin_script`:
Basic Latin letters, Latin Extended-A/B (with the preceding supplement block),
Latin Extended Additional. -/
def latinCp (n : Nat) : Bool :=
  decide ((0x41 ≤ n ∧ n ≤ 0x7A) ∨ (0xC0 ≤ n ∧ n ≤ 0x24F) ∨ (0x1E00 ≤ n ∧ n ≤ 0x1EFF))

/-- Embedding of `_is_latin_script` (src/app/services/anime_db.py).  The loop
counting Latin and non-Latin alphabetic characters is rendered with filters:
`latin_count` is the number of alphabetic characters in a Latin range and
`non_latin_count` the number of remaining alphabetic characters. -/
def is_latin_script (s : String) : Bool :=
  if s.data = [] then false
  else
    let alpha := s.data.filter pyIsAlpha
    let latin_count := (alpha.filter (fun c => latinCp c.toNat)).length
    let non_latin_count := (alpha.filter (fun c => ! latinCp c.toNat)).length
    if latin_count + non_latin_count = 0 then true
    else decide (non_latin_count < latin_count)

/-- ASCII letters, the character class of the claim's first conjunct. -/
def asciiLetter (c : Char) : Bool :=
  decide ((0x41 ≤ c.toNat ∧ c.toNat ≤ 0x5A) ∨ (0x61 ≤ c.toNat ∧ c.toNat ≤ 0x7A))

/-- CJK characters (Hiragana, Katakana, CJK Unified Ideographs, Hangul), the
character class of the claim's second conjunct. -/
def cjkChar (c : Char) : Bool :=
  let n := c.toNat
  decide ((0x3041 ≤ n ∧ n ≤ 0x3096) ∨ (0x30A1 ≤ n ∧ n ≤ 0x30FA)
    ∨ (0x4E00 ≤ n ∧ n ≤ 0x9FFF) ∨ (0xAC00 ≤ n ∧ n ≤ 0xD7A3))

theorem latinCp_of_asciiLetter {c : Char} (h : asciiLetter c = true) :
    latinCp c.toNat = true := by
  simp only [asciiLetter, decide_eq_true_eq] at h
  simp only [latinCp, decide_eq_true_eq]
  omega

theorem not_latinCp_of_cjkChar {c : Char} (h : cjkChar c = true) :
    latinCp c.toNat = false := by
  simp only [cjkChar, decide_eq_true_eq] at h
  simp only [latinCp, decide_eq_false_iff_not]
  omega

/-- C8 counterexample: the claim quantifies over every string, but the code
returns `False` for the empty string even though all of its alphabetic
characters (there are none) are vacuously ASCII letters. -/
theorem c8_vacuous_counterexample :
    (∀ c ∈ ("" : String).data, pyIsAlpha c = true → asciiLetter c = true) ∧
      is_latin_script "" = false := by
  constructor
  · intro c hc
    simp [String.data] at hc
  · rfl

/-- C8 (amended): for every string with at least one alphabetic character,
the Latin-script classifier returns `true` when all alphabetic characters are
ASCII letters, returns `false` when all alphabetic characters are CJK, and
returns `false` when the alphabetic characters are exactly 50 percent Latin
(the threshold is strictly greater than 50 percent). -/
theorem c8_latin_script_classifier (s : String)
    (h : ∃ c ∈ s.data, pyIsAlpha c = true) :
    ((∀ c ∈ s.data, pyIsAlpha c = true → asciiLetter c = true) →
        is_latin_script s = true) ∧
    ((∀ c ∈ s.data, pyIsAlpha c = true → cjkChar c = true) →
        is_latin_script s = false) ∧
    ((s.data.filter pyIsAlpha).length
        = 2 * ((s.data.filter pyIsAlpha).filter (fun c => latinCp c.toNat)).length →
      is_latin_script s = false) := by
  obtain ⟨c₀, hc₀s, hc₀a⟩ := h
  have hne : ¬ s.data = [] := by
    intro hnil
    rw [hnil] at hc₀s
    exact absurd hc₀s (List.not_mem_nil c₀)
  have hmemA : c₀ ∈ s.data.filter pyIsAlpha := List.mem_filter.mpr ⟨hc₀s, hc₀a⟩
  have hApos : 0 < (s.data.filter pyIsAlpha).length :=
    List.length_pos.mpr (List.ne_nil_of_mem hmemA)
  have hsplit := List.length_eq_length_filter_add
    (l := s.data.filter pyIsAlpha) (fun c => latinCp c.toNat)
  refine ⟨?_, ?_, ?_⟩
  · intro hall
    have hA1 : (s.data.filter pyIsAlpha).filter (fun c => latinCp c.toNat)
        = s.data.filter pyIsAlpha := by
      apply List.filter_eq_self.mpr
      intro a ha
      obtain ⟨has, haa⟩ := List.mem_filter.mp ha
      exact latinCp_of_asciiLetter (hall a has haa)
    have hA2 : (s.data.filter pyIsAlpha).filter (fun c => ! latinCp c.toNat) = [] := by
      apply List.filter_eq_nil_iff.mpr
      intro a ha
      obtain ⟨has, haa⟩ := List.mem_filter.mp ha
      simp [latinCp_of_asciiLetter (hall a has haa)]
    simp only [is_latin_script, if_neg hne, hA1, hA2, List.length_nil, Nat.add_zero,
      decide_eq_true_eq]
    rw [if_neg (Nat.pos_iff_ne_zero.mp hApos)]
    simpa using hApos
  · intro hall
    have hA1 : (s.data.filter pyIsAlpha).filter (fun c => latinCp c.toNat) = [] := by
      apply List.filter_eq_nil_iff.mpr
      intro a ha
      obtain ⟨has, haa⟩ := List.mem_filter.mp ha
      simp [not_latinCp_of_cjkChar (hall a has haa)]
    have hA2 : (s.data.filter pyIsAlpha).filter (fun c => ! latinCp c.toNat)
        = s.data.filter pyIsAlpha := by
      apply List.filter_eq_self.mpr
      intro a ha
      obtain ⟨has, haa⟩ := List.mem_filter.mp ha
      simp [not_latinCp_of_cjkChar (hall a has haa)]
    simp only [is_latin_script, if_neg hne, hA1, hA2, List.length_nil, Nat.zero_add]
    rw [if_neg (Nat.pos_iff_ne_zero.mp hApos)]
    simp
  · intro hhalf
    have hkey : ((s.data.filter pyIsAlpha).filter (fun c => ! latinCp c.toNat)).length
        = ((s.data.filter pyIsAlpha).filter (fun c => latinCp c.toNat)).length := by
      omega
    simp only [is_latin_script, if_neg hne]
    rw [if_neg (by omega), hkey]
    simp

/-- Witness for C8 at the concrete string "a日": it has an alphabetic
character, and the 50 percent conjunct fires (one Latin, one CJK letter). -/
theorem c8_latin_script_classifier_witness :
    (∃ c ∈ ("a日" : String).data, pyIsAlpha c = true) ∧
    (((∀ c ∈ ("a日" : String).data, pyIsAlpha c = true → asciiLetter c = true) →
        is_latin_script "a日" = true) ∧
    ((∀ c ∈ ("a日" : String).data, pyIsAlpha c = true → cjkChar c = true) →
        is_latin_script "a日" = false) ∧
    ((("a日" : String).data.filter pyIsAlpha).length
        = 2 * ((("a日" : String).data.filter pyIsAlpha).filter
            (fun c => latinCp c.toNat)).length →
      is_latin_script "a日" = false)) :=
  ⟨by decide, c8_latin_script_classifier "a日" (by decide)⟩

/-! ## app/models.py : SearchResult -/

/-- Embedding of the `SearchResult` model (src/app/models.py).  `pub_date` is
a `datetime` modelled as a `Nat` tick; `info_url` is optional. -/
structure SearchResult where
  title : String
  guid : String
  link : String
  info_url : Option String := none
  pub_date : Nat
  size : Nat
  seeders : Nat := 0
  peers : Nat := 0
  indexer : String := ""
  categories : List Int := [5070]
deriving DecidableEq, Repr

/-! ## app/services/nyaa.py : the indexer RSS client -/

/-- Cache TTL for Nyaa search results, in seconds (`NYAA_CACHE_TTL`). -/
def NYAA_CACHE_TTL : Nat := 60

/-- The settings the Nyaa client reads (src/app/config.py). -/
structure NyaaSettings where
  NYAA_ENGLISH_ONLY : Bool
  NYAA_TRUSTED_ONLY : Bool
  MAX_RESULTS_PER_QUERY : Nat
deriving DecidableEq, Repr

/-- The `_search_cache` dict of `NyaaClient`, as its insertion-ordered list of
entries: cache key, cached results, caching timestamp. -/
abbrev NyaaCache := List (String × List SearchResult × Nat)

/-- Dict lookup on the cache. -/
def cacheLookup (cache : NyaaCache) (k : String) : Option (List SearchResult × Nat) :=
  ((cache : List _).find? (fun e => e.1 = k)).map (·.2)

/-- Dict `del` on the cache. -/
def cacheErase (cache : NyaaCache) (k : String) : NyaaCache :=
  (cache : List _).filter (fun e => ¬ e.1 = k)

/-- Dict assignment `cache[k] = v`: replace in place when the key exists
(Python dicts keep the original insertion position), append otherwise. -/
def cacheSet (cache : NyaaCache) (k : String) (v : List SearchResult × Nat) : NyaaCache :=
  if (cache : List _).any (fun e => e.1 = k) then
    (cache : List _).map (fun e => if e.1 = k then (k, v) else e)
  else (cache : List _) ++ [(k, v)]

/-- Embedding of `NyaaClient._get_cache_key`. -/
def get_cache_key (query category filter_code : String) (limit : Nat) : String :=
  "nyaa|" ++ query ++ "|" ++ category ++ "|" ++ filter_code ++ "|" ++ toString limit

/-- Embedding of `NyaaClient._get_cached_results`: a valid entry is returned
as a hit; an expired entry is deleted from the cache.  Returns the lookup
result together with the (possibly pruned) cache. -/
def get_cached_results (now : Nat) (cache : NyaaCache) (key : String) :
    Option (List SearchResult) × NyaaCache :=
  match cacheLookup cache key with
  | none => (none, cache)
  | some (results, cached_at) =>
      if now - cached_at < NYAA_CACHE_TTL then (some results, cache)
      else (none, cacheErase cache key)

/-- The oldest cache key, `min(keys, key=lambda k: cache[k][1])`: Python's
`min` keeps the first minimum in iteration (insertion) order. -/
def oldestKey : NyaaCache → Option String
  | [] => none
  | e :: rest =>
      some ((rest.foldl (fun best x => if x.2.2 < best.2.2 then x else best) e).1)

/-- Embedding of `NyaaClient._cache_results`: store under the key, then
prune the oldest entry when more than 100 entries are held. -/
def cache_results (cache : NyaaCache) (key : String)
    (results : List SearchResult) (now : Nat) : NyaaCache :=
  let c := cacheSet cache key (results, now)
  if 100 < (c : List _).length then
    match oldestKey c with
    | some k => cacheErase c k
    | none => c
  else c

/-- Embedding of `quote_title`, the local sanitiser inside
`build_combined_query`: double quotes are removed, and the title is wrapped
in double quotes iff it contains a space or one of the characters `|()`. -/
def quote_title (t : String) : String :=
  let t := String.mk (t.data.filter (· ≠ '"'))
  if t.data.any (fun c => c = ' ' ∨ c = '|' ∨ c = '(' ∨ c = ')') then
    "\"" ++ t ++ "\""
  else t

/-- Python `sorted(set(episodes))`: the distinct elements in ascending
order. -/
def sortedUniq (l : List Int) : List Int :=
  List.insertionSort (fun a b => a ≤ b) (pyDedup l)

/-- Embedding of `NyaaClient.build_combined_query`.  Optional arguments are
lists with `[]` standing for Python `None`: the code tests both with plain
truthiness, so `None` and the empty list behave identically. -/
def build_combined_query (titles : List String) (episodes : List Int)
    (keywords : List String) : String :=
  if titles = [] then ""
  else
    let quoted_titles := (titles.filter (fun t => ¬ pyStrip t = "")).map quote_title
    let title_part :=
      match quoted_titles with
      | [t] => t
      | l => "(" ++ String.intercalate "|" l ++ ")"
    let episode_part :=
      if episodes = [] then ""
      else
        match sortedUniq episodes with
        | [e] => toString e
        | es => "(" ++ String.intercalate "|" (es.map toString) ++ ")"
    let keyword_part :=
      if keywords = [] then ""
      else
        match pyDedup keywords with
        | [k] => k
        | ks => "(" ++ String.intercalate "|" ks ++ ")"
    let parts := [title_part]
      ++ (if ¬ keyword_part = "" then [keyword_part] else [])
      ++ (if ¬ episode_part = "" then [episode_part] else [])
    String.intercalate " " parts

/-- Python's stable `results.sort(key=lambda x: x.seeders, reverse=True)`:
insertion sort under the total preorder "has at least as many seeders",
which keeps the original order of equal keys. -/
def pySortBySeedersDesc (l : List SearchResult) : List SearchResult :=
  List.insertionSort (fun a b => b.seeders ≤ a.seeders) l

/-- Embedding of `NyaaClient.search`.  `fetched` is the outcome of the HTTP
request plus RSS parse: `none` when the request or the parse fails (the code
catches `httpx.HTTPError` and `ET.ParseError` and returns `[]`), `some items`
for a parseable body with parsed items `items`.  The returned `Bool` records
whether an HTTP request to the indexer was issued. -/
def nyaaSearch (settings : NyaaSettings) (fetched : Option (List SearchResult))
    (now : Nat) (cache : NyaaCache) (query : String) (limitOpt : Option Nat) :
    List SearchResult × NyaaCache × Bool :=
  let limit := limitOpt.getD settings.MAX_RESULTS_PER_QUERY
  let category := if settings.NYAA_ENGLISH_ONLY then "1_2" else "1_0"
  let filter_code := if settings.NYAA_TRUSTED_ONLY then "2" else "0"
  let cache_key := get_cache_key query category filter_code limit
  let looked := get_cached_results now cache cache_key
  match looked.1 with
  | some cached => (cached, looked.2, false)
  | none =>
      match fetched with
      | none => ([], looked.2, true)
      | some items =>
          let results := if limit < items.length then items.take limit else items
          let results := pySortBySeedersDesc results
          (results, cache_results looked.2 cache_key results now, true)

/-- Embedding of `NyaaClient.search_multi`. -/
def search_multi (settings : NyaaSettings) (fetched : Option (List SearchResult))
    (now : Nat) (cache : NyaaCache) (titles : List String) (episodes : List Int)
    (keywords : List String) (limitOpt : Option Nat) :
    List SearchResult × NyaaCache × Bool :=
  if titles = [] then ([], cache, false)
  else
    let combined_query := build_combined_query titles episodes keywords
    if combined_query = "" then ([], cache, false)
    else nyaaSearch settings fetched now cache combined_query limitOpt

/-- The title part as the spec describes it: each sanitised title, bare when
there is exactly one, `(T1|T2|...|Tn)` otherwise. -/
def specTitlePart (titles : List String) : String :=
  match titles.map quote_title with
  | [t] => t
  | l => "(" ++ String.intercalate "|" l ++ ")"

/-- The keyword part as the spec describes it: the order-preserving
deduplicated keywords, bare if one, parenthesised and bar-joined otherwise. -/
def specKeywordPart (keywords : List String) : String :=
  match pyDedup keywords with
  | [k] => k
  | ks => "(" ++ String.intercalate "|" ks ++ ")"

/-- The episode part as the spec describes it: the deduplicated episode
numbers in ascending order, bare if one, parenthesised otherwise. -/
def specEpisodePart (episodes : List Int) : String :=
  match sortedUniq episodes with
  | [e] => toString e
  | es => "(" ++ String.intercalate "|" (es.map toString) ++ ")"

theorem toDigitsCore_cons_ne_nil (b : Nat) (f : Nat) :
    ∀ (n : Nat) (c : Char) (tl : List Char), ¬ Nat.toDigitsCore b f n (c :: tl) = [] := by
  induction f with
  | zero => intro n c tl h; simp [Nat.toDigitsCore] at h
  | succ f ih =>
      intro n c tl h
      simp only [Nat.toDigitsCore] at h
      by_cases hdiv : n / b = 0
      · rw [if_pos hdiv] at h
        exact absurd h (by simp)
      · rw [if_neg hdiv] at h
        exact ih (n / b) _ (c :: tl) h

theorem nat_repr_ne_empty (n : Nat) : ¬ Nat.repr n = "" := by
  intro h
  have hdata : (Nat.toDigits 10 n) = [] := by
    have := congrArg String.data h
    simpa [Nat.repr, List.asString] using this
  simp only [Nat.toDigits, Nat.toDigitsCore] at hdata
  by_cases hdiv : n / 10 = 0
  · rw [if_pos hdiv] at hdata
    simp at hdata
  · rw [if_neg hdiv] at hdata
    exact toDigitsCore_cons_ne_nil 10 n (n / 10) _ [] hdata

theorem int_toString_ne_empty (i : Int) : ¬ toString i = "" := by
  cases i with
  | ofNat m => exact nat_repr_ne_empty m
  | negSucc m =>
      show ¬ ("-" ++ toString (m + 1)) = ""
      intro h
      have hlen := congrArg String.length h
      rw [String.length_append] at hlen
      have h1 : ("-" : String).length = 1 := rfl
      have h2 : ("" : String).length = 0 := rfl
      omega

theorem paren_append_ne_empty (s : String) : ¬ ("(" ++ s) = "" := by
  intro h
  have hlen := congrArg String.length h
  rw [String.length_append] at hlen
  have h1 : ("(" : String).length = 1 := rfl
  have h2 : ("" : String).length = 0 := rfl
  omega

theorem pyDedup_ne_nil {α : Type} [DecidableEq α] {l : List α} (h : ¬ l = []) :
    ¬ pyDedup l = [] := by
  cases l with
  | nil => exact absurd rfl h
  | cons a l => simp [pyDedup, pyDedupAux]

theorem sortedUniq_ne_nil {l : List Int} (h : ¬ l = []) : ¬ sortedUniq l = [] := by
  intro hc
  have hlen := congrArg List.length hc
  rw [sortedUniq, List.length_insertionSort] at hlen
  exact pyDedup_ne_nil h (List.eq_nil_of_length_eq_zero hlen)

theorem specEpisodePart_ne_empty {episodes : List Int} (h : ¬ episodes = []) :
    ¬ specEpisodePart episodes = "" := by
  unfold specEpisodePart
  cases hsu : sortedUniq episodes with
  | nil => exact absurd hsu (sortedUniq_ne_nil h)
  | cons e es =>
      cases es with
      | nil => exact int_toString_ne_empty e
      | cons f fs => exact paren_append_ne_empty _

theorem intercalate_singleton (a : String) : String.intercalate " " [a] = a := rfl

theorem intercalate_pair (a b : String) :
    String.intercalate " " [a, b] = a ++ " " ++ b := rfl

theorem intercalate_triple (a b c : String) :
    String.intercalate " " [a, b, c] = a ++ " " ++ b ++ " " ++ c := rfl

/-- C2 counterexample: with the single title "X" and the keyword list
consisting of one empty keyword, the code omits the keyword part entirely,
while the claim mandates a keyword part (the bare deduplicated keyword, here
the empty string) preceded by a separating space. -/
theorem c2_counterexample :
    build_combined_query ["X"] [] [""] = "X" ∧
      ¬ build_combined_query ["X"] [] [""]
          = specTitlePart ["X"] ++ " " ++ specKeywordPart [""] := by
  constructor
  · decide
  · decide

/-- C2 (amended): for a non-empty list of distinct non-blank titles, the
combined query is the title part (each title with double quotes stripped and
quoted iff it contains a space or one of the bar and parenthesis characters,
bare when single, parenthesised bar-joined otherwise), then — if keywords
were given and their part is a non-empty string — the keyword part of the
order-preserving deduplicated keywords, then — if episodes were given — the
episode part of the deduplicated episodes in ascending order, the parts
separated by single spaces. -/
theorem c2_build_combined_query (titles : List String) (episodes : List Int)
    (keywords : List String) (hne : ¬ titles = [])
    (hblank : ∀ t ∈ titles, ¬ pyStrip t = "") (hnodup : titles.Nodup) :
    build_combined_query titles episodes keywords =
      specTitlePart titles
        ++ (if ¬ keywords = [] ∧ ¬ specKeywordPart keywords = ""
            then " " ++ specKeywordPart keywords else "")
        ++ (if ¬ episodes = [] then " " ++ specEpisodePart episodes else "") := by
  have hfil : titles.filter (fun t => ¬ pyStrip t = "") = titles := by
    apply List.filter_eq_self.mpr
    intro a ha
    simpa using hblank a ha
  rw [build_combined_query, if_neg hne, hfil]
  show String.intercalate " "
      ([specTitlePart titles]
        ++ (if ¬ (if keywords = [] then "" else specKeywordPart keywords) = ""
            then [if keywords = [] then "" else specKeywordPart keywords] else [])
        ++ (if ¬ (if episodes = [] then "" else specEpisodePart episodes) = ""
            then [if episodes = [] then "" else specEpisodePart episodes] else []))
      = _
  by_cases hk : keywords = []
  · by_cases he : episodes = []
    · simp [hk, he, intercalate_singleton]
    · simp [hk, he, specEpisodePart_ne_empty he, intercalate_pair, String.append_assoc]
  · by_cases hkp : specKeywordPart keywords = ""
    · by_cases he : episodes = []
      · simp [hk, hkp, he, intercalate_singleton]
      · simp [hk, hkp, he, specEpisodePart_ne_empty he, intercalate_pair,
          String.append_assoc]
    · by_cases he : episodes = []
      · simp [hk, hkp, he, intercalate_pair, String.append_assoc]
      · simp [hk, hkp, he, specEpisodePart_ne_empty he, intercalate_triple,
          String.append_assoc]

/-- Sample results for concrete evaluations: `sampleLow` has fewer seeders
than `sampleHigh`. -/
def sampleLow : SearchResult :=
  { title := "low", guid := "guid-low", link := "l1", pub_date := 10, size := 0,
    seeders := 1 }

/-- Companion sample with more seeders. -/
def sampleHigh : SearchResult :=
  { title := "high", guid := "guid-high", link := "l2", pub_date := 20, size := 0,
    seeders := 5 }

/-- C5 counterexample: on a cache miss with parsed items `[sampleLow,
sampleHigh]` and limit 1, the code truncates first and then sorts, returning
`[sampleLow]`; the claim (sort before limit) predicts `[sampleHigh]`. -/
theorem c5_counterexample :
    (nyaaSearch ⟨false, false, 50⟩ (some [sampleLow, sampleHigh]) 0 [] "q"
        (some 1)).1 = [sampleLow] ∧
    (pySortBySeedersDesc [sampleLow, sampleHigh]).take 1 = [sampleHigh] ∧
    ¬ ([sampleLow] : List SearchResult) = [sampleHigh] := by
  refine ⟨?_, ?_, by decide⟩
  · rfl
  · rfl

/-- C5 (amended): a cache-missing `search` call that receives a parseable
body returns (and hands to the cache store) the parsed items truncated to the
first `limit` elements and then stably sorted by seeders descending — the
limit is applied before the sort. -/
theorem c5_search_cache_miss (settings : NyaaSettings) (items : List SearchResult)
    (now : Nat) (cache : NyaaCache) (query : String) (limitOpt : Option Nat)
    (hmiss : (get_cached_results now cache (get_cache_key query
        (if settings.NYAA_ENGLISH_ONLY then "1_2" else "1_0")
        (if settings.NYAA_TRUSTED_ONLY then "2" else "0")
        (limitOpt.getD settings.MAX_RESULTS_PER_QUERY))).1 = none) :
    nyaaSearch settings (some items) now cache query limitOpt =
      (pySortBySeedersDesc (items.take (limitOpt.getD settings.MAX_RESULTS_PER_QUERY)),
       cache_results
         (get_cached_results now cache (get_cache_key query
            (if settings.NYAA_ENGLISH_ONLY then "1_2" else "1_0")
            (if settings.NYAA_TRUSTED_ONLY then "2" else "0")
            (limitOpt.getD settings.MAX_RESULTS_PER_QUERY))).2
         (get_cache_key query
            (if settings.NYAA_ENGLISH_ONLY then "1_2" else "1_0")
            (if settings.NYAA_TRUSTED_ONLY then "2" else "0")
            (limitOpt.getD settings.MAX_RESULTS_PER_QUERY))
         (pySortBySeedersDesc (items.take (limitOpt.getD settings.MAX_RESULTS_PER_QUERY)))
         now,
       true) := by
  rw [nyaaSearch]
  simp only [hmiss]
  by_cases hlen : limitOpt.getD settings.MAX_RESULTS_PER_QUERY < items.length
  · simp only [if_pos hlen]
  · simp only [if_neg hlen, List.take_of_length_le (Nat.le_of_not_lt hlen)]

/-- Witness for C5 on an empty cache with one parsed item. -/
theorem c5_search_cache_miss_witness :
    (get_cached_results 0 [] (get_cache_key "w"
        (if (false : Bool) then "1_2" else "1_0")
        (if (false : Bool) then "2" else "0")
        ((some 5).getD 50))).1 = none ∧
    nyaaSearch ⟨false, false, 50⟩ (some [sampleLow]) 0 [] "w" (some 5) =
      (pySortBySeedersDesc ([sampleLow].take ((some 5).getD 50)),
       cache_results
         (get_cached_results 0 [] (get_cache_key "w"
            (if (false : Bool) then "1_2" else "1_0")
            (if (false : Bool) then "2" else "0")
            ((some 5).getD 50))).2
         (get_cache_key "w"
            (if (false : Bool) then "1_2" else "1_0")
            (if (false : Bool) then "2" else "0")
            ((some 5).getD 50))
         (pySortBySeedersDesc ([sampleLow].take ((some 5).getD 50)))
         0,
       true) :=
  ⟨rfl, c5_search_cache_miss ⟨false, false, 50⟩ [sampleLow] 0 [] "w" (some 5) rfl⟩

/-- C10: `search_multi` on an empty titles list returns the empty result
list, leaves the cache untouched and issues no indexer request, whatever the
episodes, keywords and limit arguments; and `build_combined_query` on an
empty titles list returns the empty string. -/
theorem c10_search_multi_empty_titles (settings : NyaaSettings)
    (fetched : Option (List SearchResult)) (now : Nat) (cache : NyaaCache)
    (episodes : List Int) (keywords : List String) (limitOpt : Option Nat) :
    search_multi settings fetched now cache [] episodes keywords limitOpt
        = ([], cache, false) ∧
      build_combined_query [] episodes keywords = "" := by
  constructor
  · rw [search_multi, if_pos rfl]
  · rw [build_combined_query, if_pos rfl]

/-- Witness for C2 at titles ["Initial D Fifth Stage", "Initial D"],
episodes [27, 1, 27], keywords ["OVA", "Special", "OVA"]. -/
theorem c2_build_combined_query_witness :
    (¬ (["Initial D Fifth Stage", "Initial D"] : List String) = []) ∧
    (∀ t ∈ (["Initial D Fifth Stage", "Initial D"] : List String), ¬ pyStrip t = "") ∧
    (["Initial D Fifth Stage", "Initial D"] : List String).Nodup ∧
    build_combined_query ["Initial D Fifth Stage", "Initial D"] [27, 1, 27]
        ["OVA", "Special", "OVA"] =
      specTitlePart ["Initial D Fifth Stage", "Initial D"]
        ++ (if ¬ (["OVA", "Special", "OVA"] : List String) = []
              ∧ ¬ specKeywordPart ["OVA", "Special", "OVA"] = ""
            then " " ++ specKeywordPart ["OVA", "Special", "OVA"] else "")
        ++ (if ¬ ([27, 1, 27] : List Int) = []
            then " " ++ specEpisodePart [27, 1, 27] else "") :=
  ⟨by decide, by decide, by decide,
    c2_build_combined_query _ _ _ (by decide) (by decide) (by decide)⟩

/-! ## app/models.py : AnimeTitle, AnimeMapping, MappingOverride -/

/-- Embedding of the `AnimeTitle` model.  The Python fields are
`Optional[str]`; the code only ever tests them for truthiness, under which
`None` and `""` are indistinguishable, so both are modelled as `""`. -/
structure AnimeTitle where
  romaji : String := ""
  english : String := ""
  native : String := ""
  synonyms : List String := []
deriving DecidableEq, Repr

/-- An entry of `AnimeMapping.season_info`, a dict with keys `season` and
`episodes` (read in the source with `.get(key, 0)`, both always present). -/
structure SeasonEntry where
  season : Int
  episodes : Int
deriving DecidableEq, Repr

/-- Embedding of the `AnimeMapping` model; `last_updated` is a `datetime`
modelled as a `Nat` tick. -/
structure AnimeMapping where
  tvdb_id : Int
  anidb_id : Option Int := none
  anilist_id : Option Int := none
  mal_id : Option Int := none
  titles : AnimeTitle
  total_episodes : Int := 0
  season_info : List SeasonEntry := []
  last_updated : Nat
  user_override : Bool := false
deriving DecidableEq, Repr

/-- Embedding of `AnimeMapping.get_search_titles`: romaji, english, native
and then synonyms, appended in that order, each skipped when empty or already
present. -/
def AnimeMapping.get_search_titles (m : AnimeMapping) : List String :=
  let titles : List String := []
  let titles := if ¬ m.titles.romaji = "" then titles ++ [m.titles.romaji] else titles
  let titles :=
    if ¬ m.titles.english = "" ∧ m.titles.english ∉ titles
    then titles ++ [m.titles.english] else titles
  let titles :=
    if ¬ m.titles.native = "" ∧ m.titles.native ∉ titles
    then titles ++ [m.titles.native] else titles
  m.titles.synonyms.foldl
    (fun acc s => if ¬ s = "" ∧ s ∉ acc then acc ++ [s] else acc) titles

/-- An entry of `MappingOverride.season_ranges`. -/
structure SeasonRange where
  season : Int
  episodes : Int
  start_absolute : Int
deriving DecidableEq, Repr

/-- Embedding of the `MappingOverride` model. -/
structure MappingOverride where
  tvdb_id : Int
  anidb_id : Option Int := none
  anilist_id : Option Int := none
  mal_id : Option Int := none
  custom_titles : List String := []
  season_episode_overrides : List (String × Int) := []
  season_ranges : List SeasonRange := []
  notes : String := ""
deriving DecidableEq, Repr

/-! ## app/services/mapping.py : the mapping resolver

The AniList client is an external HTTP collaborator; `get_mapping` only uses
it through `get_by_anilist_id` followed by `extract_titles` and
`get_episode_count`, so it is modelled as a function
`anilist : Int → Option (AnimeTitle × Int)` giving, per AniList id, the
extracted titles and episode count when data is returned, and `none` when no
data comes back or an exception is raised (both are caught and treated
alike).  Likewise the offline catalog is used only through `get_by_tvdb_id`
followed by `extract_ids`/`extract_titles`, modelled as
`animeDb : Int → Option AnimeDbView`. -/

/-- View of an offline-catalog entry at the boundary `get_mapping` consumes:
the ids produced by `anime_db.extract_ids` and the titles produced by
`anime_db.extract_titles`. -/
structure AnimeDbView where
  anidb_id : Option Int := none
  anilist_id : Option Int := none
  mal_id : Option Int := none
  titles : AnimeTitle
deriving DecidableEq, Repr

/-- Dict lookup on an `Int`-keyed assoc list (insertion-ordered dict). -/
def dictLookup {β : Type} (d : List (Int × β)) (k : Int) : Option β :=
  (d.find? (fun e => e.1 = k)).map (·.2)

/-- Dict assignment on an `Int`-keyed assoc list. -/
def dictSet {β : Type} (d : List (Int × β)) (k : Int) (v : β) : List (Int × β) :=
  if d.any (fun e => e.1 = k) then d.map (fun e => if e.1 = k then (k, v) else e)
  else d ++ [(k, v)]

/-- In-memory state of `MappingService`: the `cache` and `overrides` dicts. -/
structure MappingState where
  cache : List (Int × AnimeMapping)
  overrides : List (Int × MappingOverride)
deriving DecidableEq, Repr

/-- Embedding of `MappingService._merge_titles`.  Python's
`list(set(a + b))` has unspecified order; it is determinised here as
first-occurrence order, which preserves the membership the program relies
on. -/
def merge_titles (base additional : AnimeTitle) : AnimeTitle :=
  { romaji := if ¬ base.romaji = "" then base.romaji else additional.romaji
    english := if ¬ base.english = "" then base.english else additional.english
    native := if ¬ base.native = "" then base.native else additional.native
    synonyms := pyDedup (base.synonyms ++ additional.synonyms) }

/-- Shared enrichment step: `if <anilist-id>:` (falsy for `None` and `0`),
then fetch and, when data is present, merge titles and take the episode
count. -/
def anilistEnrich (anilist : Int → Option (AnimeTitle × Int))
    (aid : Option Int) (titles : AnimeTitle) : AnimeTitle × Int :=
  match aid with
  | some a =>
      if a = 0 then (titles, 0)
      else
        match anilist a with
        | some (atitles, count) => (merge_titles titles atitles, count)
        | none => (titles, 0)
  | none => (titles, 0)

/-- Embedding of `MappingService._create_mapping_from_override`. -/
def create_mapping_from_override (anilist : Int → Option (AnimeTitle × Int))
    (override : MappingOverride) (now : Nat) : AnimeMapping :=
  let titles : AnimeTitle := { synonyms := override.custom_titles }
  let enriched := anilistEnrich anilist override.anilist_id titles
  { tvdb_id := override.tvdb_id
    anidb_id := override.anidb_id
    anilist_id := override.anilist_id
    mal_id := override.mal_id
    titles := enriched.1
    total_episodes := enriched.2
    season_info := []
    last_updated := now
    user_override := true }

/-- Embedding of `MappingService._create_mapping_from_anime_db`. -/
def create_mapping_from_anime_db (anilist : Int → Option (AnimeTitle × Int))
    (tvdb_id : Int) (anime : AnimeDbView) (now : Nat) : AnimeMapping :=
  let enriched := anilistEnrich anilist anime.anilist_id anime.titles
  { tvdb_id := tvdb_id
    anidb_id := anime.anidb_id
    anilist_id := anime.anilist_id
    mal_id := anime.mal_id
    titles := enriched.1
    total_episodes := enriched.2
    season_info := []
    last_updated := now
    user_override := false }

/-- Embedding of `MappingService._cache_mapping` (the accompanying
`_save_cache` is a disk write with no in-memory effect). -/
def cache_mapping (st : MappingState) (m : AnimeMapping) : MappingState :=
  { st with cache := dictSet st.cache m.tvdb_id m }

/-- Embedding of `MappingService.get_mapping`: override, then fresh cache
entry, then offline catalog (cached on success), then nothing.  A stale cache
entry merely falls through; it is not deleted. -/
def get_mapping (anilist : Int → Option (AnimeTitle × Int))
    (animeDb : Int → Option AnimeDbView) (now : Nat) (ttl : Nat)
    (st : MappingState) (tvdb_id : Int) : Option AnimeMapping × MappingState :=
  match dictLookup st.overrides tvdb_id with
  | some override => (some (create_mapping_from_override anilist override now), st)
  | none =>
      let cacheHit : Option AnimeMapping :=
        match dictLookup st.cache tvdb_id with
        | some cached =>
            if now - cached.last_updated < ttl then some cached else none
        | none => none
      match cacheHit with
      | some cached => (some cached, st)
      | none =>
          match animeDb tvdb_id with
          | some anime =>
              let mapping := create_mapping_from_anime_db anilist tvdb_id anime now
              (some mapping, cache_mapping st mapping)
          | none => (none, st)

theorem mem_pyDedupAux {α : Type} [DecidableEq α] {t : α} :
    ∀ (l seen : List α), t ∈ l → t ∉ seen → t ∈ pyDedupAux seen l := by
  intro l
  induction l with
  | nil => intro seen h _; exact absurd h (List.not_mem_nil t)
  | cons a l ih =>
      intro seen hmem hseen
      by_cases ha : a ∈ seen
      · simp only [pyDedupAux, if_pos ha]
        rcases List.mem_cons.mp hmem with rfl | hl
        · exact absurd ha hseen
        · exact ih seen hl hseen
      · simp only [pyDedupAux, if_neg ha]
        rcases List.mem_cons.mp hmem with rfl | hl
        · exact List.mem_cons_self _ _
        · by_cases hta : t = a
          · subst hta; exact List.mem_cons_self _ _
          · refine List.mem_cons_of_mem _ (ih (a :: seen) hl ?_)
            intro hc
            rcases List.mem_cons.mp hc with h1 | h2
            · exact hta h1
            · exact hseen h2

theorem mem_pyDedup {α : Type} [DecidableEq α] {t : α} {l : List α} (h : t ∈ l) :
    t ∈ pyDedup l :=
  mem_pyDedupAux l [] h (List.not_mem_nil t)

theorem titles_foldl_ne_nil :
    ∀ (syn : List String) (acc : List String),
      ((∃ s ∈ syn, ¬ s = "") ∨ ¬ acc = []) →
      ¬ (syn.foldl (fun acc s => if ¬ s = "" ∧ s ∉ acc then acc ++ [s] else acc) acc)
          = [] := by
  intro syn
  induction syn with
  | nil =>
      intro acc h
      rcases h with ⟨s, hs, _⟩ | hacc
      · exact absurd hs (List.not_mem_nil s)
      · simpa using hacc
  | cons s syn ih =>
      intro acc h
      rw [List.foldl_cons]
      by_cases hcond : ¬ s = "" ∧ s ∉ acc
      · rw [if_pos hcond]
        apply ih
        right
        simp
      · rw [if_neg hcond]
        apply ih
        rcases h with ⟨w, hw, hwne⟩ | hacc
        · rcases List.mem_cons.mp hw with rfl | hwsyn
          · right
            have hmem : w ∈ acc := by tauto
            exact List.ne_nil_of_mem hmem
          · left; exact ⟨w, hwsyn, hwne⟩
        · right; exact hacc

theorem get_search_titles_ne_nil_of_synonym {m : AnimeMapping} {t : String}
    (ht : t ∈ m.titles.synonyms) (hb : ¬ t = "") :
    ¬ m.get_search_titles = [] := by
  unfold AnimeMapping.get_search_titles
  apply titles_foldl_ne_nil
  left
  exact ⟨t, ht, hb⟩

/-- A user override with no custom titles (and no enrichment data). -/
def emptyOverride : MappingOverride := { tvdb_id := 5 }

/-- C3 counterexample: with a user override carrying no custom titles and no
AniList data available, `get_mapping` returns a mapping whose
`get_search_titles` is the empty list, refuting "at least one non-empty
search title" for every returned mapping. -/
theorem c3_counterexample :
    ((get_mapping (fun _ => none) (fun _ => none) 0 604800
        ⟨[], [(5, emptyOverride)]⟩ 5).1).map AnimeMapping.get_search_titles
      = some [] := rfl

/-- C3 (amended): a mapping synthesized from a user override has at least one
search title whenever the override carries at least one non-blank custom
title; with an override present, `get_mapping` returns exactly that
synthesized mapping.  (An override with no custom titles and no enrichment
yields a mapping with no search titles, so the unconditional claim fails.) -/
theorem c3_override_search_titles (anilist : Int → Option (AnimeTitle × Int))
    (animeDb : Int → Option AnimeDbView) (now ttl : Nat) (st : MappingState)
    (tvdb_id : Int) (override : MappingOverride) (t : String)
    (hov : dictLookup st.overrides tvdb_id = some override)
    (ht : t ∈ override.custom_titles) (hb : ¬ t = "") :
    (get_mapping anilist animeDb now ttl st tvdb_id).1
        = some (create_mapping_from_override anilist override now) ∧
      ¬ (create_mapping_from_override anilist override now).get_search_titles
          = [] := by
  constructor
  · simp only [get_mapping, hov]
  · apply get_search_titles_ne_nil_of_synonym (t := t) _ hb
    show t ∈ (anilistEnrich anilist override.anilist_id
        { synonyms := override.custom_titles }).1.synonyms
    unfold anilistEnrich
    cases haid : override.anilist_id with
    | none => simpa using ht
    | some a =>
        by_cases ha0 : a = 0
        · simpa [ha0] using ht
        · cases hres : anilist a with
          | none => simpa [ha0, hres] using ht
          | some pr =>
              obtain ⟨atitles, count⟩ := pr
              simp only [ha0, hres, if_neg, ite_false, merge_titles]
              exact mem_pyDedup (List.mem_append_left _ ht)

/-- Witness for C3 with a one-title override. -/
theorem c3_override_search_titles_witness :
    dictLookup (MappingState.mk [] [(9, { tvdb_id := 9, custom_titles := ["Frieren"] })]).overrides 9
        = some { tvdb_id := 9, custom_titles := ["Frieren"] } ∧
    ("Frieren" : String) ∈
      ({ tvdb_id := 9, custom_titles := ["Frieren"] } : MappingOverride).custom_titles ∧
    ¬ ("Frieren" : String) = "" ∧
    ((get_mapping (fun _ => none) (fun _ => none) 3 604800
        ⟨[], [(9, { tvdb_id := 9, custom_titles := ["Frieren"] })]⟩ 9).1
        = some (create_mapping_from_override (fun _ => none)
            { tvdb_id := 9, custom_titles := ["Frieren"] } 3) ∧
      ¬ (create_mapping_from_override (fun _ => none)
            { tvdb_id := 9, custom_titles := ["Frieren"] } 3).get_search_titles
          = []) :=
  ⟨rfl, by decide, by decide,
    c3_override_search_titles (fun _ => none) (fun _ => none) 3 604800
      ⟨[], [(9, { tvdb_id := 9, custom_titles := ["Frieren"] })]⟩ 9
      { tvdb_id := 9, custom_titles := ["Frieren"] } "Frieren" rfl (by decide) (by decide)⟩

/-- C9: with no override, a stale cache entry (age at least the TTL) and no
offline-catalog entry, `get_mapping` returns nothing and leaves the state —
in particular the stale cache entry — untouched. -/
theorem c9_stale_cache_no_fallback (anilist : Int → Option (AnimeTitle × Int))
    (animeDb : Int → Option AnimeDbView) (now ttl : Nat) (st : MappingState)
    (tvdb_id : Int) (m : AnimeMapping)
    (hov : dictLookup st.overrides tvdb_id = none)
    (hc : dictLookup st.cache tvdb_id = some m)
    (hstale : ttl ≤ now - m.last_updated)
    (hdb : animeDb tvdb_id = none) :
    get_mapping anilist animeDb now ttl st tvdb_id = (none, st) := by
  simp only [get_mapping, hov, hc, hdb]
  rw [if_neg (Nat.not_lt.mpr hstale)]

/-- A cached mapping last updated at tick 0. -/
def staleMapping : AnimeMapping :=
  { tvdb_id := 7, titles := { romaji := "T" }, last_updated := 0 }

/-! ## app/services/episode.py : season/episode to absolute translation -/

/-- The loop of `EpisodeTranslator._calculate_from_season_info`, over the
season-sorted list, carrying the accumulated episode count. -/
def calcLoop (target_season target_episode : Int) :
    Int → List SeasonEntry → Option Int
  | _, [] => none
  | acc, sd :: rest =>
      if sd.season < target_season then
        calcLoop target_season target_episode (acc + sd.episodes) rest
      else if sd.season = target_season then
        if target_episode ≤ sd.episodes then some (acc + target_episode) else none
      else none

/-- Embedding of `EpisodeTranslator._calculate_from_season_info`: the season
list is stably sorted by season ascending (Python `sorted` with key), then
summed until the target season. -/
def calculate_from_season_info (season_info : List SeasonEntry)
    (target_season target_episode : Int) : Option Int :=
  calcLoop target_season target_episode 0
    (List.insertionSort (fun a b => a.season ≤ b.season) season_info)

/-- Embedding of `EpisodeTranslator.to_absolute`.  External collaborators
enter as data: `ovLookup` is the result of the two-level user-override lookup
(`overrides.get(tvdb_id)` then the "SxxEyy" key; `none` when either level
misses), consulted only when `mapping.user_override` is set; `xem` is the
result of the TheXEM episode lookup, `none` also standing for a raised (and
caught) exception.  The Python `if xem_absolute:` and `if absolute:` truthiness
tests additionally discard a zero result. -/
def to_absolute (ovLookup : Option Int) (xem : Option Int)
    (mapping : AnimeMapping) (season episode : Int) : Option Int :=
  let step1 : Option Int := if mapping.user_override then ovLookup else none
  match step1 with
  | some a => some a
  | none =>
      let step2 : Option Int :=
        match xem with
        | some v => if v = 0 then none else some v
        | none => none
      match step2 with
      | some v => some v
      | none =>
          let step3 : Option Int :=
            if ¬ mapping.season_info = [] then
              match calculate_from_season_info mapping.season_info season episode with
              | some a => if a = 0 then none else some a
              | none => none
            else none
          match step3 with
          | some a => some a
          | none =>
              if season = 1 then some episode
              else if 0 < mapping.total_episodes then
                some ((season - 1) * 12 + episode)
              else some episode

/-- A mapping with no season shape and an unknown (zero) episode total. -/
def bareMapping : AnimeMapping :=
  { tvdb_id := 11, titles := { romaji := "B" }, total_episodes := 0,
    last_updated := 0 }

/-- C6 counterexample: for a mapping with `total_episodes = 0`, season 2 and
episode 3 — with the episode-map service and the season shape yielding
nothing — the code returns the episode number 3 unchanged, not the estimate
(2 - 1) * 12 + 3 = 15 required by the claim. -/
theorem c6_counterexample :
    to_absolute none none bareMapping 2 3 = some 3 ∧
      ¬ (some (3 : Int) = some ((2 - 1) * 12 + 3 : Int)) := by
  constructor
  · rfl
  · decide

/-- C6 (amended): when the user-override step, the episode-map service and
the season-shape calculation all yield nothing, `to_absolute` returns the
episode number for season 1; for higher seasons it returns the
12-episodes-per-season estimate (s - 1) * 12 + e only when the mapping knows
a positive total episode count, and falls back to the bare episode number
when `total_episodes` is zero. -/
theorem c6_to_absolute_fallback (ovLookup xem : Option Int)
    (mapping : AnimeMapping) (season episode : Int)
    (hov : (if mapping.user_override then ovLookup else none) = none)
    (hxem : xem = none)
    (hsi : calculate_from_season_info mapping.season_info season episode = none
        ∨ calculate_from_season_info mapping.season_info season episode = some 0) :
    to_absolute ovLookup xem mapping season episode =
      some (if season = 1 then episode
        else if 0 < mapping.total_episodes then (season - 1) * 12 + episode
        else episode) := by
  rw [to_absolute.eq_def]
  simp only [hov, hxem]
  have hstep3 : (if ¬ mapping.season_info = [] then
      match calculate_from_season_info mapping.season_info season episode with
      | some a => if a = 0 then none else some a
      | none => none
    else none) = (none : Option Int) := by
    by_cases hne : mapping.season_info = []
    · rw [if_neg (by simpa using hne)]
    · rw [if_pos (by simpa using hne)]
      rcases hsi with h | h <;> simp [h]
  simp only [hstep3]
  by_cases h1 : season = 1
  · simp [h1]
  · by_cases h2 : 0 < mapping.total_episodes <;> simp [h1, h2]

/-! ## app/services/query.py : result deduplication -/

/-- Python `str.split()` with no argument: split on whitespace runs, no empty
words, implemented with a right fold carrying (finished words, current
word). -/
def pySplitWs (s : String) : List String :=
  let r := s.data.foldr
    (fun c (acc : List (List Char) × List Char) =>
      if pyIsSpace c then (if acc.2 = [] then acc.1 else acc.2 :: acc.1, [])
      else (acc.1, c :: acc.2))
    ([], [])
  (if r.2 = [] then r.1 else r.2 :: r.1).map String.mk

/-- Python `str.lower()` (character-wise; the tags the normaliser removes are
ASCII). -/
def pyLower (s : String) : String :=
  String.mk (s.data.map Char.toLower)

/-- The fixed pattern list of `QueryService._normalize_title`. -/
def patterns_to_remove : List String :=
  ["1080p", "720p", "480p", "2160p", "hevc", "x264", "x265", "h264", "h265",
   "aac", "flac", "mp3", "web-dl", "webrip", "bluray", "bdrip", "dual audio",
   "multi-sub", "[", "]", "(", ")", "\x7b", "\x7d"]

/-- Embedding of `QueryService._normalize_title`: lowercase, replace each
fixed pattern with a space, collapse whitespace, strip. -/
def normalize_title (title : String) : String :=
  let normalized := pyLower title
  let normalized := patterns_to_remove.foldl (fun s p => s.replace p " ") normalized
  let normalized := String.intercalate " " (pySplitWs normalized)
  pyStrip normalized

/-- Embedding of `QueryService._is_better_result`: more seeders wins, ties
broken by newer publication date. -/
def is_better_result (new existing : SearchResult) : Bool :=
  if existing.seeders < new.seeders then true
  else if new.seeders < existing.seeders then false
  else decide (existing.pub_date < new.pub_date)

/-- One step of the exact-GUID pass: `acc` is the insertion-ordered entry
list of the `unique_results` dict; a known GUID is replaced in place when the
new result is better, an unknown GUID is appended. -/
def guidUpdate (acc : List SearchResult) (r : SearchResult) : List SearchResult :=
  if acc.any (fun e => e.guid = r.guid) then
    acc.map (fun e =>
      if e.guid = r.guid then (if is_better_result r e then r else e) else e)
  else acc ++ [r]

/-- The exact-GUID pass of `QueryService._deduplicate_results` (first loop):
fold the results into the GUID-keyed dict and read the values back in
insertion order. -/
def exact_pass (results : List SearchResult) : List SearchResult :=
  results.foldl guidUpdate []

/-- Python `max(group, key=lambda x: (x.seeders, x.pub_date))` over `x :: xs`:
the first element with the lexicographically maximal key (replacement only on
strict increase). -/
def pyMaxSeedersDate (x : SearchResult) (xs : List SearchResult) : SearchResult :=
  xs.foldl
    (fun best r =>
      if best.seeders < r.seeders ∨ (best.seeders = r.seeders ∧ best.pub_date < r.pub_date)
      then r else best) x

/-- Embedding of `QueryService._fuzzy_deduplicate`: group by normalised
title (groups in first-occurrence key order, the dict's iteration order) and
keep the best of each group. -/
def fuzzy_deduplicate (results : List SearchResult) : List SearchResult :=
  if results.length ≤ 1 then results
  else
    (pyDedup (results.map (fun r => normalize_title r.title))).flatMap
      (fun k =>
        match results.filter (fun r => normalize_title r.title = k) with
        | [] => []
        | x :: xs => [pyMaxSeedersDate x xs])

/-- The final sort order of `_deduplicate_results`:
`sort(key=lambda x: (x.seeders, x.pub_date), reverse=True)`, i.e. `a` comes
weakly before `b` when `a`'s (seeders, pub_date) key is lexicographically at
least `b`'s. -/
def resultOrder (a b : SearchResult) : Prop :=
  b.seeders < a.seeders ∨ (b.seeders = a.seeders ∧ b.pub_date ≤ a.pub_date)

instance instDecResultOrder : DecidableRel resultOrder := fun a b => by
  unfold resultOrder; exact inferInstance

instance instTotalResultOrder : IsTotal SearchResult resultOrder :=
  ⟨fun a b => by unfold resultOrder; omega⟩

instance instTransResultOrder : IsTrans SearchResult resultOrder :=
  ⟨fun a b c hab hbc => by unfold resultOrder at hab hbc ⊢; omega⟩

/-- Python's stable sort under `resultOrder` (insertion sort keeps the
original order of equal keys, as `list.sort` does). -/
def pySortResults (l : List SearchResult) : List SearchResult :=
  List.insertionSort resultOrder l

/-- Embedding of `QueryService._deduplicate_results`: exact-GUID pass, fuzzy
pass, final sort by (seeders, pub_date) descending. -/
def deduplicate_results (results : List SearchResult) : List SearchResult :=
  pySortResults (fuzzy_deduplicate (exact_pass results))

theorem pyDedupAux_nodup_aux {α : Type} [DecidableEq α] :
    ∀ (l seen : List α),
      (pyDedupAux seen l).Nodup ∧ ∀ x ∈ pyDedupAux seen l, x ∉ seen := by
  intro l
  induction l with
  | nil =>
      intro seen
      exact ⟨List.nodup_nil, by intro x hx; simp [pyDedupAux] at hx⟩
  | cons a l ih =>
      intro seen
      by_cases ha : a ∈ seen
      · simp only [pyDedupAux, if_pos ha]
        exact ih seen
      · simp only [pyDedupAux, if_neg ha]
        obtain ⟨hnd, hmem⟩ := ih (a :: seen)
        refine ⟨List.nodup_cons.mpr ⟨?_, hnd⟩, ?_⟩
        · intro hcon
          exact (hmem a hcon) (List.mem_cons_self a seen)
        · intro x hx
          rcases List.mem_cons.mp hx with rfl | hx2
          · exact ha
          · intro hxs
            exact (hmem x hx2) (List.mem_cons_of_mem a hxs)

theorem pyDedup_nodup {α : Type} [DecidableEq α] (l : List α) : (pyDedup l).Nodup :=
  (pyDedupAux_nodup_aux l []).1

theorem pyDedupAux_eq_self {α : Type} [DecidableEq α] :
    ∀ (l seen : List α), l.Nodup → (∀ x ∈ l, x ∉ seen) → pyDedupAux seen l = l := by
  intro l
  induction l with
  | nil => intro seen _ _; rfl
  | cons a l ih =>
      intro seen hnd hdis
      have ha : a ∉ seen := hdis a (List.mem_cons_self a l)
      simp only [pyDedupAux, if_neg ha]
      congr 1
      apply ih (a :: seen) (List.nodup_cons.mp hnd).2
      intro x hx hcon
      rcases List.mem_cons.mp hcon with rfl | h2
      · exact (List.nodup_cons.mp hnd).1 hx
      · exact hdis x (List.mem_cons_of_mem a hx) h2

theorem pyDedup_eq_self {α : Type} [DecidableEq α] {l : List α} (h : l.Nodup) :
    pyDedup l = l :=
  pyDedupAux_eq_self l [] h (by simp)

theorem guidUpdate_nodup {acc : List SearchResult} {r : SearchResult}
    (h : (acc.map (fun e => e.guid)).Nodup) :
    ((guidUpdate acc r).map (fun e => e.guid)).Nodup := by
  unfold guidUpdate
  by_cases hany : acc.any (fun e => e.guid = r.guid) = true
  · rw [if_pos hany]
    have hmap : (acc.map (fun e =>
        if e.guid = r.guid then (if is_better_result r e then r else e) else e)).map
        (fun e => e.guid) = acc.map (fun e => e.guid) := by
      rw [List.map_map]
      apply List.map_congr_left
      intro e _
      by_cases hg : e.guid = r.guid
      · by_cases hb : is_better_result r e = true
        · simp only [Function.comp_apply]
          rw [if_pos hg, if_pos hb]
          exact hg.symm
        · simp only [Function.comp_apply]
          rw [if_pos hg, if_neg hb]
      · simp only [Function.comp_apply]
        rw [if_neg hg]
    rw [hmap]
    exact h
  · rw [if_neg hany]
    rw [List.map_append]
    apply List.nodup_append.mpr
    refine ⟨h, by simp, ?_⟩
    intro g hg
    simp only [List.mem_map] at hg
    obtain ⟨e, he, rfl⟩ := hg
    simp only [List.map_cons, List.map_nil, List.mem_singleton]
    intro heq
    exact hany (List.any_eq_true.mpr ⟨e, he, by simpa using heq⟩)

theorem exact_pass_guid_nodup_aux :
    ∀ (l acc : List SearchResult), (acc.map (fun e => e.guid)).Nodup →
      ((l.foldl guidUpdate acc).map (fun e => e.guid)).Nodup := by
  intro l
  induction l with
  | nil => intro acc h; exact h
  | cons r l ih =>
      intro acc h
      rw [List.foldl_cons]
      exact ih _ (guidUpdate_nodup h)

theorem exact_pass_guid_nodup (xs : List SearchResult) :
    ((exact_pass xs).map (fun e => e.guid)).Nodup :=
  exact_pass_guid_nodup_aux xs [] (by simp)

theorem exact_pass_id_aux :
    ∀ (l acc : List SearchResult), ((acc ++ l).map (fun e => e.guid)).Nodup →
      l.foldl guidUpdate acc = acc ++ l := by
  intro l
  induction l with
  | nil => intro acc _; simp
  | cons r l ih =>
      intro acc h
      rw [List.foldl_cons]
      have hnotin : ¬ (acc.any (fun e => e.guid = r.guid) = true) := by
        simp only [List.any_eq_true, decide_eq_true_eq]
        rintro ⟨e, he, heq⟩
        have h1 : e.guid ∈ acc.map (fun e => e.guid) := List.mem_map_of_mem _ he
        have hdisj := (List.nodup_append.mp (by rwa [List.map_append] at h)).2.2
        exact hdisj h1 (by simp [heq])
      rw [guidUpdate, if_neg hnotin]
      have hres := ih (acc ++ [r]) (by simpa using h)
      simpa using hres

theorem exact_pass_id {m : List SearchResult}
    (h : (m.map (fun e => e.guid)).Nodup) : exact_pass m = m := by
  have := exact_pass_id_aux m [] (by simpa using h)
  simpa [exact_pass] using this

theorem foldl_choice_mem (f : SearchResult → SearchResult → SearchResult)
    (hf : ∀ a b, f a b = a ∨ f a b = b) :
    ∀ (xs : List SearchResult) (x : SearchResult), xs.foldl f x ∈ x :: xs := by
  intro xs
  induction xs with
  | nil => intro x; simp
  | cons r xs ih =>
      intro x
      rw [List.foldl_cons]
      rcases hf x r with h | h <;> rw [h]
      · have := ih x
        simp only [List.mem_cons] at this ⊢
        tauto
      · have := ih r
        simp only [List.mem_cons] at this ⊢
        tauto

theorem pyMaxSeedersDate_mem (x : SearchResult) (xs : List SearchResult) :
    pyMaxSeedersDate x xs ∈ x :: xs := by
  apply foldl_choice_mem
  intro a b
  by_cases hc : (a.seeders < b.seeders ∨ (a.seeders = b.seeders ∧ a.pub_date < b.pub_date))
  · right; exact if_pos hc
  · left; exact if_neg hc

theorem fuzzy_subset {m : List SearchResult} {x : SearchResult}
    (h : x ∈ fuzzy_deduplicate m) : x ∈ m := by
  unfold fuzzy_deduplicate at h
  by_cases hlen : m.length ≤ 1
  · rw [if_pos hlen] at h
    exact h
  · rw [if_neg hlen] at h
    rw [List.mem_flatMap] at h
    obtain ⟨k, _, hx⟩ := h
    cases hfil : m.filter (fun r => normalize_title r.title = k) with
    | nil => rw [hfil] at hx; simp at hx
    | cons y ys =>
        rw [hfil] at hx
        simp only [List.mem_singleton] at hx
        subst hx
        exact List.mem_of_mem_filter (hfil ▸ pyMaxSeedersDate_mem y ys)

theorem flatMap_groups_pairwise (m : List SearchResult) :
    ∀ (keys : List String), keys.Nodup →
      (keys.flatMap (fun k =>
        match m.filter (fun r => normalize_title r.title = k) with
        | [] => []
        | x :: xs => [pyMaxSeedersDate x xs])).Pairwise
        (fun a b => ¬ normalize_title a.title = normalize_title b.title) := by
  intro keys
  induction keys with
  | nil => intro _; simp
  | cons k keys ih =>
      intro hnd
      rw [List.flatMap_cons, List.pairwise_append]
      obtain ⟨hk_notin, hnd2⟩ := List.nodup_cons.mp hnd
      refine ⟨?_, ih hnd2, ?_⟩
      · cases m.filter (fun r => normalize_title r.title = k) with
        | nil => simp
        | cons x xs => simp
      · intro a ha b hb
        have hak : normalize_title a.title = k := by
          cases hfil : m.filter (fun r => normalize_title r.title = k) with
          | nil => rw [hfil] at ha; simp at ha
          | cons x xs =>
              rw [hfil] at ha
              simp only [List.mem_singleton] at ha
              subst ha
              have hmem := List.mem_filter.mp (hfil ▸ pyMaxSeedersDate_mem x xs)
              simpa using hmem.2
        have hbk : normalize_title b.title ∈ keys := by
          rw [List.mem_flatMap] at hb
          obtain ⟨k2, hk2, hbk2⟩ := hb
          cases hfil : m.filter (fun r => normalize_title r.title = k2) with
          | nil => rw [hfil] at hbk2; simp at hbk2
          | cons x xs =>
              rw [hfil] at hbk2
              simp only [List.mem_singleton] at hbk2
              subst hbk2
              have hmem := List.mem_filter.mp (hfil ▸ pyMaxSeedersDate_mem x xs)
              have h2 : normalize_title (pyMaxSeedersDate x xs).title = k2 := by
                simpa using hmem.2
              rw [h2]
              exact hk2
        intro he
        rw [he] at hak
        exact hk_notin (hak ▸ hbk)

theorem fuzzy_norm_pairwise (m : List SearchResult) :
    (fuzzy_deduplicate m).Pairwise
      (fun a b => ¬ normalize_title a.title = normalize_title b.title) := by
  unfold fuzzy_deduplicate
  by_cases hlen : m.length ≤ 1
  · rw [if_pos hlen]
    cases m with
    | nil => exact List.Pairwise.nil
    | cons x m2 =>
        cases m2 with
        | nil => simp
        | cons y m3 => simp at hlen
  · rw [if_neg hlen]
    exact flatMap_groups_pairwise m _ (pyDedup_nodup _)

theorem fuzzy_guid_pairwise {m : List SearchResult}
    (h : m.Pairwise (fun a b => ¬ a.guid = b.guid)) :
    (fuzzy_deduplicate m).Pairwise (fun a b => ¬ a.guid = b.guid) := by
  apply (fuzzy_norm_pairwise m).imp_of_mem
  intro a b ha hb hne
  have ham := fuzzy_subset ha
  have hbm := fuzzy_subset hb
  have hab : a ≠ b := fun e => hne (by rw [e])
  have hsym : Symmetric (fun a b : SearchResult => ¬ a.guid = b.guid) :=
    fun x y hxy e => hxy e.symm
  exact h.forall hsym ham hbm hab

theorem filter_norm_singleton :
    ∀ {m : List SearchResult},
      m.Pairwise (fun a b => ¬ normalize_title a.title = normalize_title b.title) →
      ∀ {x}, x ∈ m →
        m.filter (fun r => normalize_title r.title = normalize_title x.title) = [x] := by
  intro m
  induction m with
  | nil => intro _ x hx; simp at hx
  | cons a m ih =>
      intro h x hx
      obtain ⟨hhead, htail⟩ := List.pairwise_cons.mp h
      rcases List.mem_cons.mp hx with rfl | hxm
      · have hrest : m.filter
            (fun r => normalize_title r.title = normalize_title x.title) = [] := by
          apply List.filter_eq_nil_iff.mpr
          intro r hr
          simpa using fun e => (hhead r hr) e.symm
        simp [List.filter_cons, hrest]
      · rw [List.filter_cons, if_neg (by simpa using hhead x hxm)]
        exact ih htail hxm

theorem fuzzy_id {m : List SearchResult}
    (h : m.Pairwise (fun a b => ¬ normalize_title a.title = normalize_title b.title)) :
    fuzzy_deduplicate m = m := by
  unfold fuzzy_deduplicate
  by_cases hlen : m.length ≤ 1
  · rw [if_pos hlen]
  · rw [if_neg hlen]
    have hnd : (m.map (fun r => normalize_title r.title)).Nodup :=
      List.pairwise_map.mpr h
    rw [pyDedup_eq_self hnd]
    rw [List.flatMap_map]
    have hcong : ∀ x ∈ m,
        (match m.filter
            (fun r => normalize_title r.title = normalize_title x.title) with
          | [] => ([] : List SearchResult)
          | y :: ys => [pyMaxSeedersDate y ys]) = [x] := by
      intro x hxm
      rw [filter_norm_singleton h hxm]
      rfl
    rw [List.flatMap_congr hcong]
    exact List.flatMap_singleton' m

theorem pySortResults_perm (l : List SearchResult) :
    List.Perm (pySortResults l) l :=
  List.perm_insertionSort resultOrder l

theorem pySortResults_sorted (l : List SearchResult) :
    List.Sorted resultOrder (pySortResults l) :=
  List.sorted_insertionSort resultOrder l

theorem pySortResults_id {l : List SearchResult}
    (h : List.Sorted resultOrder l) : pySortResults l = l :=
  h.insertionSort_eq

theorem guid_nodup_iff_pairwise {m : List SearchResult} :
    (m.map (fun e => e.guid)).Nodup ↔
      m.Pairwise (fun a b => ¬ a.guid = b.guid) :=
  List.pairwise_map

theorem dedupe_guid_pairwise (xs : List SearchResult) :
    (deduplicate_results xs).Pairwise (fun a b => ¬ a.guid = b.guid) := by
  have hsym : Symmetric (fun a b : SearchResult => ¬ a.guid = b.guid) :=
    fun x y hxy e => hxy e.symm
  unfold deduplicate_results
  apply ((pySortResults_perm _).pairwise_iff (fun h e => hsym h e)).mpr
  exact fuzzy_guid_pairwise (guid_nodup_iff_pairwise.mp (exact_pass_guid_nodup xs))

theorem dedupe_norm_pairwise (xs : List SearchResult) :
    (deduplicate_results xs).Pairwise
      (fun a b => ¬ normalize_title a.title = normalize_title b.title) := by
  have hsym : Symmetric
      (fun a b : SearchResult =>
        ¬ normalize_title a.title = normalize_title b.title) :=
    fun x y hxy e => hxy e.symm
  unfold deduplicate_results
  apply ((pySortResults_perm _).pairwise_iff (fun h e => hsym h e)).mpr
  exact fuzzy_norm_pairwise _

/-- C7: the full deduplication (exact GUID pass, fuzzy normalised-title pass,
final sort by seeders then publication date descending) is idempotent. -/
theorem c7_deduplicate_idempotent (xs : List SearchResult) :
    deduplicate_results (deduplicate_results xs) = deduplicate_results xs := by
  have hg := dedupe_guid_pairwise xs
  have hn := dedupe_norm_pairwise xs
  have hs : List.Sorted resultOrder (deduplicate_results xs) :=
    pySortResults_sorted _
  show pySortResults (fuzzy_deduplicate (exact_pass (deduplicate_results xs)))
      = deduplicate_results xs
  rw [exact_pass_id (guid_nodup_iff_pairwise.mpr hg), fuzzy_id hn]
  exact pySortResults_id hs

/-- A mapping with a known 24-episode total for the C6 witness. -/
def totalledMapping : AnimeMapping :=
  { tvdb_id := 12, titles := { romaji := "W" }, total_episodes := 24,
    last_updated := 0 }

/-- Witness for C6 with a known 24-episode total, season 3, episode 5. -/
theorem c6_to_absolute_fallback_witness :
    ((if totalledMapping.user_override then (none : Option Int) else none) = none) ∧
    ((none : Option Int) = none) ∧
    (calculate_from_season_info totalledMapping.season_info 3 5 = none ∨
      calculate_from_season_info totalledMapping.season_info 3 5 = some 0) ∧
    to_absolute none none totalledMapping 3 5 =
      some (if (3 : Int) = 1 then (5 : Int)
        else if 0 < totalledMapping.total_episodes then ((3 : Int) - 1) * 12 + 5
        else 5) :=
  ⟨rfl, rfl, Or.inl rfl,
    c6_to_absolute_fallback none none totalledMapping 3 5 rfl rfl (Or.inl rfl)⟩

/-! ## app/api/torznab.py : the season-zero sniff -/

/-- Word characters for the regex class `\w` (letters, digits,
underscore). -/
def isWordChar (c : Char) : Bool :=
  pyIsAlpha c ∨ c.isDigit ∨ c = '_'

/-- Boundary test for `\b` on the left of a word character: start of string
or a preceding non-word character. -/
def boundaryBefore : Option Char → Bool
  | none => true
  | some p => ¬ isWordChar p

/-- Boundary test for `\b` on the right: end of string or a following
non-word character. -/
def boundaryAfter : List Char → Bool
  | [] => true
  | c :: _ => ¬ isWordChar c

/-- The check `re.search(r"\s+00$", query)` in `_is_season_zero_query`: the
string ends in "00" preceded by at least one whitespace character. -/
def search_ws00_end (q : String) : Bool :=
  match q.data.reverse with
  | a :: b :: c :: _ => a = '0' ∧ b = '0' ∧ pyIsSpace c
  | _ => false

/-- After the digits of `\d+`, consume the remaining digits and require a
word boundary. -/
def afterDigitsBoundary : List Char → Bool
  | [] => true
  | c :: rest => if c.isDigit then afterDigitsBoundary rest else ¬ isWordChar c

/-- A match of `S\d+\b` starting at the head of the list (case
insensitive). -/
def seasonIndicatorAt : List Char → Bool
  | c :: d :: rest => (c = 'S' ∨ c = 's') ∧ d.isDigit ∧ afterDigitsBoundary rest
  | _ => false

/-- Scan for `\bS\d+\b` (`re.search` with `re.IGNORECASE`). -/
def scanSeasonIndicator : Option Char → List Char → Bool
  | _, [] => false
  | prev, c :: rest =>
      if boundaryBefore prev ∧ seasonIndicatorAt (c :: rest) then true
      else scanSeasonIndicator (some c) rest

/-- The check `re.search(r"\bS\d+\b", query, re.IGNORECASE)`. -/
def has_season_indicator (q : String) : Bool :=
  scanSeasonIndicator none q.data

/-- Embedding of `_is_season_zero_query` (src/app/api/torznab.py): a trailing
`\s+00` answers `True` immediately; the season-indicator check and the final
fallthrough both answer `False`. -/
def is_season_zero_query (q : String) : Bool :=
  if search_ws00_end q then true
  else if has_season_indicator q then false
  else false

/-- Embedding of `_strip_season_zero_suffix`:
`re.sub(r"\s+0\d$", "", query).strip()`.  The greedy `\s+` swallows the whole
trailing whitespace run before the two digits. -/
def strip_season_zero_suffix (q : String) : String :=
  let stripped :=
    match q.data.reverse with
    | d :: z :: c :: rest =>
        if d.isDigit ∧ z = '0' ∧ pyIsSpace c then
          ((c :: rest).dropWhile pyIsSpace).reverse
        else q.data
    | _ => q.data
  pyStrip (String.mk stripped)

/-- The season-zero preprocessing step of `handle_search` (torznab.py lines
506-511): a query classified as season zero flips `is_special` and is
stripped before the special search is dispatched. -/
def season_zero_preprocess (is_special : Bool) (query : String) : Bool × String :=
  if ¬ is_special ∧ is_season_zero_query query then
    (true, strip_season_zero_suffix query)
  else (is_special, query)

/-- The claim's classification condition, stated independently: the query
ends with whitespace followed by "00". -/
def endsWithSpace00 (q : String) : Prop :=
  ∃ a c, q.data = a ++ [c, '0', '0'] ∧ pyIsSpace c = true

/-- C4 counterexample: "Bakuman S2 00" contains the season indicator
`\bS\d+\b`, yet the code classifies it as a season-zero query — the
season-indicator check can never veto a trailing " 00", contrary to the
claim's "AND contains no season indicator". -/
theorem c4_counterexample :
    is_season_zero_query "Bakuman S2 00" = true ∧
      has_season_indicator "Bakuman S2 00" = true := by
  constructor
  · decide
  · decide

/-- C4 (amended): the season-zero sniff classifies a query as season-zero
exactly when it ends with whitespace followed by "00" — the season-indicator
check is dead code for classification — and a classified query has its
trailing `\s+0\d` suffix stripped (plus a final `strip()`) before the special
search is dispatched. -/
theorem c4_season_zero_sniff (q : String) :
    (is_season_zero_query q = true ↔ endsWithSpace00 q) ∧
    (is_season_zero_query q = true →
      season_zero_preprocess false q = (true, strip_season_zero_suffix q)) := by
  have hiff : is_season_zero_query q = search_ws00_end q := by
    cases hsw : search_ws00_end q with
    | true => simp [is_season_zero_query, hsw]
    | false => simp [is_season_zero_query, hsw]
  constructor
  · rw [hiff]
    constructor
    · intro h
      unfold search_ws00_end at h
      rcases hd : q.data.reverse with _ | ⟨a, _ | ⟨b, _ | ⟨c, rest⟩⟩⟩ <;>
        rw [hd] at h <;> simp only [decide_eq_true_eq] at h
      · exact absurd h (by simp)
      · exact absurd h (by simp)
      · exact absurd h (by simp)
      · obtain ⟨ha, hb, hc⟩ := h
        refine ⟨rest.reverse, c, ?_, hc⟩
        have hq : q.data = (q.data.reverse).reverse := by rw [List.reverse_reverse]
        rw [hq, hd, ha, hb]
        simp
    · rintro ⟨a, c, hq, hc⟩
      have hrev : q.data.reverse = '0' :: '0' :: c :: a.reverse := by
        rw [hq]
        simp
      unfold search_ws00_end
      rw [hrev]
      simp [hc]
  · intro h
    unfold season_zero_preprocess
    rw [if_pos (by simp [h])]

/-- Witness for C4 at the concrete query "Kaguya sama 00". -/
theorem c4_season_zero_sniff_witness :
    is_season_zero_query "Kaguya sama 00" = true ∧
    season_zero_preprocess false "Kaguya sama 00"
        = (true, strip_season_zero_suffix "Kaguya sama 00") ∧
    strip_season_zero_suffix "Kaguya sama 00" = "Kaguya sama" :=
  ⟨by decide, (c4_season_zero_sniff "Kaguya sama 00").2 (by decide), by decide⟩

/-! ## app/services/query.py : the relevance filter -/

/-- The `STOP_WORDS` set of src/app/services/query.py. -/
def STOP_WORDS : List String :=
  ["the", "a", "an", "and", "or", "but", "in", "on", "at", "to", "for", "of",
   "with", "by", "from", "as", "is", "was", "are", "were", "been", "be",
   "have", "has", "had", "do", "does", "did", "will", "would", "could",
   "should", "may", "might", "must", "shall", "can", "need", "this", "that",
   "these", "those", "i", "you", "he", "she", "it", "we", "they", "what",
   "which", "who", "whom", "where", "when", "why", "how", "all", "each",
   "every", "both", "few", "more", "most", "other", "some", "such", "no",
   "nor", "not", "only", "own", "same", "so", "than", "too", "very", "just",
   "season", "episode", "ep", "vol", "volume", "part", "chapter", "s01",
   "s02", "s03", "s04", "s1", "s2", "s3", "s4", "ova", "ona", "movie",
   "film", "special", "specials", "love", "war", "world", "story", "tale",
   "life", "time", "day", "days", "night", "girl", "girls", "boy", "boys",
   "man", "men", "woman", "women", "school", "high", "magic", "battle",
   "fight", "hero", "heroes", "dragon", "sword", "king", "queen", "prince",
   "princess", "knight", "angel", "demon", "god", "devil", "soul", "spirit",
   "heart", "dream", "star", "stars", "moon", "sun", "sky", "sea", "ocean",
   "fire", "ice", "dark", "light", "black", "white", "red", "blue", "green",
   "golden", "new", "last", "first", "final", "ultimate", "great", "super",
   "mega", "zero", "one", "two", "three", "ii", "iii", "iv"]

/-- Removal of standalone numbers, `re.sub(r"\b\d+\b", "", title)`: a
maximal digit run flanked by word boundaries is deleted; a run glued to a
word character is kept whole.  Structural on a fuel bounded by the input
length. -/
def rmNumsAux : Nat → Option Char → List Char → List Char
  | 0, _, l => l
  | _ + 1, _, [] => []
  | fuel + 1, prev, c :: rest =>
      if c.isDigit ∧ boundaryBefore prev then
        let run := (c :: rest).takeWhile Char.isDigit
        let rest2 := (c :: rest).dropWhile Char.isDigit
        if boundaryAfter rest2 then rmNumsAux fuel (some c) rest2
        else run ++ rmNumsAux fuel (some c) rest2
      else c :: rmNumsAux fuel (some c) rest

/-- Entry point for the standalone-number removal. -/
def remove_standalone_numbers (l : List Char) : List Char :=
  rmNumsAux l.length none l

/-- Punctuation removal, `re.sub(r"[^\w\s]", " ", s)`: every character that
is neither a word character nor whitespace becomes a space. -/
def removePunct (l : List Char) : List Char :=
  l.map (fun c => if isWordChar c ∨ pyIsSpace c then c else ' ')

/-- Embedding of `QueryService._extract_keywords`.  The Python function
returns a set consumed only through membership and counting of distinct
elements; it is modelled as the deduplicated word list. -/
def extract_keywords (titles : List String) : List String :=
  pyDedup (titles.flatMap (fun title =>
    let cleaned := remove_standalone_numbers title.data
    let cleaned := removePunct cleaned
    let words := pySplitWs (pyLower (String.mk cleaned))
    words.filter (fun w => w ∉ STOP_WORDS ∧ 3 ≤ w.length)))

/-- Substring prefix test on character lists. -/
def startsWithList : List Char → List Char → Bool
  | [], _ => true
  | _ :: _, [] => false
  | a :: as, b :: bs => a = b ∧ startsWithList as bs

/-- Python's `needle in haystack` substring containment. -/
def isSubstrList (needle : List Char) : List Char → Bool
  | [] => needle = []
  | c :: rest => startsWithList needle (c :: rest) ∨ isSubstrList needle rest

/-- Embedding of `QueryService._is_valid_partial_match`: both words at least
4 characters, the shorter at least half the longer, and the shorter a
substring of the longer. -/
def is_valid_partial_match (keyword result_word : String) : Bool :=
  if keyword.length < 4 ∨ result_word.length < 4 then false
  else
    let shorter := if keyword.length ≤ result_word.length then keyword else result_word
    let longer := if keyword.length ≤ result_word.length then result_word else keyword
    if 2 * shorter.length < longer.length then false
    else isSubstrList shorter.data longer.data

/-- Embedding of `QueryService._is_result_relevant`: count keywords present
in the result's word set, add keywords with a valid partial match, compare
with the minimum. -/
def is_result_relevant (result_title : String) (search_keywords : List String)
    (min_match : Nat) : Bool :=
  let cleaned := removePunct (pyLower result_title).data
  let result_words := pyDedup (pySplitWs (String.mk cleaned))
  let kw_matches := search_keywords.filter (fun k => k ∈ result_words)
  let extra := (search_keywords.filter (fun k =>
    k ∉ kw_matches ∧ result_words.any (fun w => is_valid_partial_match k w))).length
  decide (min_match ≤ kw_matches.length + extra)

/-- Embedding of `QueryService.filter_relevant_results`. -/
def filter_relevant_results (results : List SearchResult)
    (search_titles : List String) (min_keyword_match : Nat) : List SearchResult :=
  if results = [] ∨ search_titles = [] then results
  else
    let search_keywords := extract_keywords search_titles
    if search_keywords = [] then results
    else results.filter (fun r =>
      is_result_relevant r.title search_keywords min_keyword_match)

/-- Embedding of the module-level `filter_results_by_query`. -/
def filter_results_by_query (results : List SearchResult) (query : String)
    (min_keyword_match : Nat) : List SearchResult :=
  filter_relevant_results results [query] min_keyword_match

/-! ## app/api/torznab.py : handle_tvsearch_special (C1)

The handler composes the mapping resolver (embedded above) with the Sonarr
client and the indexer client.  The Sonarr and indexer HTTP calls enter as
environment data; crucially, Python attribute lookup on the Sonarr client is
modelled: the torznab handler invokes the method name
"get_wanted_episodes_by_episode_number" (plural), and a name not defined on
`SonarrClient` raises `AttributeError`. -/

/-- Embedding of the `EpisodeInfo` model (src/app/models.py). -/
structure EpisodeInfo where
  series_id : Int
  series_title : String
  season_number : Int
  episode_number : Int
  absolute_episode_number : Option Int := none
  title : Option String := none
  is_special : Bool := false
deriving DecidableEq, Repr

/-- A Python exception escaping a handler (FastAPI turns it into an HTTP 500
response). -/
inductive PyError where
  | attributeError (method : String)
deriving DecidableEq, Repr

/-- A successfully rendered Torznab response:
`create_torznab_rss(results, tvdbid, season, episode)`. -/
inductive ApiResponse where
  | rss (results : List SearchResult)
      (tvdbid season episode : Option Int)
deriving DecidableEq, Repr

/-- The method names defined on `SonarrClient` in
src/app/services/sonarr.py. -/
def sonarrClientMethods : List String :=
  ["configure", "is_configured", "get_series_by_tvdb_id",
   "get_episodes_by_series_id", "get_episode_by_absolute_number",
   "get_episode_by_season_episode", "get_wanted_episode_by_episode_number",
   "clear_cache"]

/-- Case-insensitive literal matcher (pattern given in lowercase); returns
the rest of the input on success. -/
def matchLiteralCI : List Char → List Char → Option (List Char)
  | [], rest => some rest
  | _ :: _, [] => none
  | p :: ps, c :: rest => if c.toLower = p then matchLiteralCI ps rest else none

/-- Matcher for `\d+` (greedy); returns the rest. -/
def matchDigits1 : List Char → Option (List Char)
  | [] => none
  | c :: rest => if c.isDigit then some (rest.dropWhile Char.isDigit) else none

/-- Matcher for the ordinal suffix `(st|nd|rd|th)`, case insensitive. -/
def matchOrdSuffix : List Char → Option (List Char)
  | a :: b :: rest =>
      if (a.toLower = 's' ∧ b.toLower = 't') ∨ (a.toLower = 'n' ∧ b.toLower = 'd')
          ∨ (a.toLower = 'r' ∧ b.toLower = 'd') ∨ (a.toLower = 't' ∧ b.toLower = 'h')
      then some rest else none
  | _ => none

/-- One of the three alternatives of the `_filter_season_titles` pattern
`\b(S\d+|Season\s*\d+|\d+(st|nd|rd|th)\s*Season)\b` matching at the head. -/
def seasonAltAt (l : List Char) : Bool :=
  seasonIndicatorAt l
  || (match matchLiteralCI ['s', 'e', 'a', 's', 'o', 'n'] l with
     | some rest =>
        match matchDigits1 (rest.dropWhile pyIsSpace) with
        | some rest2 => boundaryAfter rest2
        | none => false
     | none => false)
  || (match matchDigits1 l with
     | some rest =>
        match matchOrdSuffix rest with
        | some rest2 =>
            match matchLiteralCI ['s', 'e', 'a', 's', 'o', 'n']
                (rest2.dropWhile pyIsSpace) with
            | some rest3 => boundaryAfter rest3
            | none => false
        | none => false
     | none => false)

/-- Scan of the season pattern over all start positions. -/
def scanSeasonPattern : Option Char → List Char → Bool
  | _, [] => false
  | prev, c :: rest =>
      if boundaryBefore prev ∧ seasonAltAt (c :: rest) then true
      else scanSeasonPattern (some c) rest

/-- The `season_pattern.search` test of `_filter_season_titles`. -/
def has_season_pattern (t : String) : Bool :=
  scanSeasonPattern none t.data

/-- Embedding of `_filter_season_titles` (src/app/api/torznab.py): drop
season-scoped title variants, but always keep at least the first title. -/
def filter_season_titles (titles : List String) : List String :=
  let filtered := titles.filter (fun t => ¬ has_season_pattern t = true)
  if filtered = [] then
    match titles with
    | [] => []
    | t :: _ => [t]
  else filtered

/-- Deduplication by GUID keeping first occurrences (the `seen_guids` set
loop shared by the torznab search helpers). -/
def dedupeByGuidAux : List String → List SearchResult → List SearchResult
  | _, [] => []
  | seen, r :: rest =>
      if r.guid ∈ seen then dedupeByGuidAux seen rest
      else r :: dedupeByGuidAux (r.guid :: seen) rest

/-- Python `str.isdigit()` restricted to ASCII digits. -/
def pyIsDigitStr (s : String) : Bool :=
  ¬ s.data = [] ∧ s.data.all Char.isDigit

/-- Python `int(s)` on an all-digit string. -/
def strToNat (s : String) : Nat :=
  s.data.foldl (fun n c => n * 10 + (c.toNat - 48)) 0

/-- Environment of `handle_tvsearch_special`: the mapping resolver's
collaborators and state, the Sonarr flag and lookup outcomes, and the
indexer (Nyaa) search outcomes.  `wantedEpisodes` carries the type the call
site expects from the (nonexistent) plural method; `searchMulti` maps
(titles, episodes, keywords) to the indexer's combined-query results and
`searchSingle` a bare query to its results. -/
structure TorznabEnv where
  anilist : Int → Option (AnimeTitle × Int)
  animeDb : Int → Option AnimeDbView
  mappingState : MappingState
  now : Nat
  ttl : Nat
  sonarrConfigured : Bool
  wantedEpisodes : Int → Int → List EpisodeInfo
  episodeByAbsolute : Int → Int → Option EpisodeInfo
  searchMulti : List String → List Int → List String → List SearchResult
  searchSingle : String → List SearchResult

/-- Embedding of `_search_for_absolute_episodes` (combined-query branch, the
one taken for the Nyaa client): filter season titles, cap at 3, one combined
search, GUID dedup, relevance filter against the primary title, sort,
paginate, render. -/
def search_for_absolute_episodes (env : TorznabEnv) (tvdb_id : Int)
    (titles : List String) (absolute_eps : List Int) (limit offset : Nat) :
    ApiResponse :=
  let filtered_titles := filter_season_titles titles
  let search_titles := filtered_titles.take 3
  let all_results := env.searchMulti search_titles absolute_eps []
  let unique_results := dedupeByGuidAux [] all_results
  let primary_title := titles.headD ""
  let relevant_results := filter_results_by_query unique_results primary_title 1
  let sorted := pySortResults relevant_results
  ApiResponse.rss ((sorted.drop offset).take limit) (some tvdb_id) none none

/-- Embedding of `_search_for_special` (combined-query branch): one combined
search of the primary title with the special keywords plus one bare-title
search, GUID dedup, relevance filter, sort, paginate, render. -/
def search_for_special (env : TorznabEnv) (tvdb_id : Int)
    (titles : List String) (episode_num : Option Int) (limit offset : Nat) :
    ApiResponse :=
  let primary_title := titles.headD ""
  let episodes := match episode_num with | some e => [e] | none => []
  let combined := env.searchMulti [primary_title] episodes
    ["OVA", "Special", "OAD", "Movie"]
  let all_results := combined ++ env.searchSingle primary_title
  let unique_results := dedupeByGuidAux [] all_results
  let relevant_results := filter_results_by_query unique_results primary_title 1
  let sorted := pySortResults relevant_results
  ApiResponse.rss ((sorted.drop offset).take limit) (some tvdb_id) none none

/-- Embedding of `handle_tvsearch_special` (src/app/api/torznab.py lines
159-278).  The handler has no try/except: an exception escapes to FastAPI,
which answers HTTP 500.  When the query is a positive all-digit string and
the Sonarr client is configured, the code accesses the attribute
"get_wanted_episodes_by_episode_number" on the Sonarr client; `sonarr.py`
defines no such method (only the singular
`get_wanted_episode_by_episode_number`), so the access raises
`AttributeError`; the continuation below the membership test transcribes the
code that would run if the attribute existed. -/
def handle_tvsearch_special (env : TorznabEnv) (tvdb_id : Int)
    (query : Option String) (limit offset : Nat) : Except PyError ApiResponse :=
  match (get_mapping env.anilist env.animeDb env.now env.ttl
      env.mappingState tvdb_id).1 with
  | none => .ok (ApiResponse.rss [] none none none)
  | some mapping =>
      let titles := mapping.get_search_titles
      if titles = [] then .ok (ApiResponse.rss [] none none none)
      else
        let is_potential_episode_num : Bool :=
          match query with
          | some s => pyIsDigitStr (pyStrip s) && decide (0 < strToNat (pyStrip s))
          | none => false
        if is_potential_episode_num then
          let query_num : Int := (strToNat (pyStrip (query.getD "")) : Nat)
          if env.sonarrConfigured then
            if "get_wanted_episodes_by_episode_number" ∈ sonarrClientMethods then
              let wanted_episodes := env.wantedEpisodes tvdb_id query_num
              let absolute_eps :=
                wanted_episodes.filterMap (fun e => e.absolute_episode_number)
              let has_specials := wanted_episodes.any (fun e => e.is_special)
              if ¬ wanted_episodes = [] ∧ ¬ absolute_eps = [] then
                if has_specials then
                  .ok (search_for_special env tvdb_id titles
                    (some (absolute_eps.headD 0)) limit offset)
                else
                  .ok (search_for_absolute_episodes env tvdb_id titles
                    absolute_eps limit offset)
              else
                match env.episodeByAbsolute tvdb_id query_num with
                | some episode_info =>
                    if episode_info.is_special then
                      .ok (search_for_special env tvdb_id titles
                        (some query_num) limit offset)
                    else
                      .ok (search_for_absolute_episodes env tvdb_id titles
                        [query_num] limit offset)
                | none =>
                    .ok (search_for_absolute_episodes env tvdb_id titles
                      [query_num] limit offset)
            else
              .error (PyError.attributeError
                "get_wanted_episodes_by_episode_number")
          else
            .ok (search_for_absolute_episodes env tvdb_id titles
              [query_num] limit offset)
        else
          .ok (search_for_special env tvdb_id titles none limit offset)

/-- C1: the bare-numeric Sonarr-aware dispatch path raises.  Whenever the
mapping exists with at least one search title, the query is a positive
all-digit string and the Sonarr client is configured, the handler evaluates
to a raised `AttributeError` (the called method name does not exist on the
Sonarr client) — FastAPI surfaces this as an HTTP 500, so the request does
not produce the RSS response the claim requires and the no-5xx policy is
violated. -/
theorem c1_bare_numeric_dispatch_raises (env : TorznabEnv) (tvdb_id : Int)
    (q : String) (limit offset : Nat) (m : AnimeMapping)
    (hmap : (get_mapping env.anilist env.animeDb env.now env.ttl
        env.mappingState tvdb_id).1 = some m)
    (htitles : ¬ m.get_search_titles = [])
    (hdigit : pyIsDigitStr (pyStrip q) = true)
    (hpos : 0 < strToNat (pyStrip q))
    (hson : env.sonarrConfigured = true) :
    handle_tvsearch_special env tvdb_id (some q) limit offset
      = .error (PyError.attributeError
          "get_wanted_episodes_by_episode_number") := by
  unfold handle_tvsearch_special
  simp only [hmap]
  rw [if_neg htitles]
  have hcond : (pyIsDigitStr (pyStrip q) && decide (0 < strToNat (pyStrip q)))
      = true := by
    simp [hdigit, hpos]
  rw [if_pos hcond, if_pos hson,
    if_neg (show ¬ ("get_wanted_episodes_by_episode_number" ∈ sonarrClientMethods)
      by decide)]

/-- Environment for the C1 witness: an override-backed mapping for TVDB
293267, Sonarr configured, all external lookups empty. -/
def c1Env : TorznabEnv :=
  { anilist := fun _ => none
    animeDb := fun _ => none
    mappingState :=
      ⟨[], [(293267, { tvdb_id := 293267, custom_titles := ["Prison School"] })]⟩
    now := 0
    ttl := 604800
    sonarrConfigured := true
    wantedEpisodes := fun _ _ => []
    episodeByAbsolute := fun _ _ => none
    searchMulti := fun _ _ _ => []
    searchSingle := fun _ => [] }

/-- Witness for C1 at the concrete request tvdbid=293267, q="01". -/
theorem c1_bare_numeric_dispatch_raises_witness :
    (get_mapping c1Env.anilist c1Env.animeDb c1Env.now c1Env.ttl
        c1Env.mappingState 293267).1
      = some (create_mapping_from_override (fun _ => none)
          { tvdb_id := 293267, custom_titles := ["Prison School"] } 0) ∧
    ¬ (create_mapping_from_override (fun _ => none)
        { tvdb_id := 293267, custom_titles := ["Prison School"] } 0).get_search_titles
      = [] ∧
    pyIsDigitStr (pyStrip "01") = true ∧
    0 < strToNat (pyStrip "01") ∧
    c1Env.sonarrConfigured = true ∧
    handle_tvsearch_special c1Env 293267 (some "01") 100 0
      = .error (PyError.attributeError
          "get_wanted_episodes_by_episode_number") :=
  ⟨rfl, by decide, by decide, by decide, rfl,
    c1_bare_numeric_dispatch_raises c1Env 293267 "01" 100 0
      (create_mapping_from_override (fun _ => none)
        { tvdb_id := 293267, custom_titles := ["Prison School"] } 0)
      rfl (by decide) (by decide) (by decide) rfl⟩

/-- Witness for C9: a week-old cache entry at `now = MAPPING_CACHE_TTL`. -/
theorem c9_stale_cache_no_fallback_witness :
    dictLookup (MappingState.mk [(7, staleMapping)] []).overrides 7 = none ∧
    dictLookup (MappingState.mk [(7, staleMapping)] []).cache 7 = some staleMapping ∧
    604800 ≤ 604800 - staleMapping.last_updated ∧
    ((fun _ => none) : Int → Option AnimeDbView) 7 = none ∧
    get_mapping (fun _ => none) (fun _ => none) 604800 604800
        ⟨[(7, staleMapping)], []⟩ 7 = (none, ⟨[(7, staleMapping)], []⟩) :=
  ⟨rfl, rfl, by decide, rfl,
    c9_stale_cache_no_fallback (fun _ => none) (fun _ => none) 604800 604800
      ⟨[(7, staleMapping)], []⟩ 7 staleMapping rfl rfl (by decide) rfl⟩

end ASP
